import Mathlib

set_option autoImplicit false

namespace WebbpsfExt

/-!
Verification development for the webbpsf_ext repository (modules
`coords.py`, `image_manip.py`, `webbpsf_ext_core.py`).  Python floating
point values are modelled by exact rationals; external numerical library
routines (numpy sqrt / arctan2, polynomial fitting, SIAF conversions,
image rendering) are modelled as explicit function parameters, since the
properties under study are control-flow and data-flow properties of the
repository code, not of those libraries.
-/

/-- Coefficient cube (array of per-pixel polynomial coefficients), modelled
as a rational-valued function of the flattened array index.  The numpy
scalar `0` used as the initial value of coefficient modifications
broadcasts over arrays, which corresponds to the pointwise-zero cube. -/
abbrev Cube : Type := Nat → ℚ

/-- Machine epsilon of a 64-bit float, `np.finfo(float).eps` in
`coords.py`. -/
def npEps : ℚ := 1 / 2 ^ 52

/-! ### Python runtime model -/

/-- Python exceptions raised by the modelled code paths. -/
inductive PyErr where
  | keyError : String → PyErr
  | assertError : String → PyErr
  | valueError : String → PyErr
  | nameError : String → PyErr
  | attributeError : String → PyErr
  deriving DecidableEq, Repr

/-- Values stored in the `_psf_coeff_mod` dictionary of an instrument
object: `None` placeholders, coefficient-residual cubes, grid-axis
arrays, and aperture-name strings. -/
inductive PyObj where
  | pynone : PyObj
  | cube : Cube → PyObj
  | arr : List ℚ → PyObj
  | str : String → PyObj

/-- Test whether a dictionary value is the Python `None` placeholder. -/
def PyObj.isNone : PyObj → Bool
  | .pynone => true
  | _ => false

/-- Python dictionary with string keys, as an association list. -/
abbrev PyDict : Type := List (String × PyObj)

/-- Key-membership test for a Python dictionary. -/
def hasKey (d : PyDict) (k : String) : Bool :=
  (d.find? (fun kv => kv.1 == k)).isSome

/-- Dictionary subscript read `d[k]`: raises `KeyError(k)` when the key is
absent. -/
def dictGet (d : PyDict) (k : String) : Except PyErr PyObj :=
  match d.find? (fun kv => kv.1 == k) with
  | some kv => .ok kv.2
  | none => .error (.keyError k)

/-- Dictionary subscript write `d[k] = v`: replaces the binding when the
key is present, otherwise appends it. -/
def dictSet (d : PyDict) (k : String) (v : PyObj) : PyDict :=
  if hasKey d k then
    d.map (fun kv => if kv.1 == k then (kv.1, v) else kv)
  else
    d ++ [(k, v)]

/-! ### Claim C2: default polynomial fit degrees (`ndeg` properties) -/

/-- Default polynomial fit degree of the NIRCam extension (`NIRCam_ext.ndeg`
property, `webbpsf_ext_core.py` lines 201-210).  When the `_ndeg` attribute
is unset the default is selected from `use_legendre` and `quick`; both
branches of the `use_legendre` conditional carry the same literal values
`7 if self.quick else 9`. -/
def NIRCam_ndeg (ndeg_attr : Option Nat) (use_legendre quick : Bool) : Nat :=
  match ndeg_attr with
  | some n => n
  | none =>
    if use_legendre then
      (if quick then 7 else 9)
    else
      (if quick then 7 else 9)

/-- Default polynomial fit degree of the MIRI extension (`MIRI_ext.ndeg`
property, `webbpsf_ext_core.py` lines 734-744): both branches of the
`use_legendre` conditional carry `4 if self.quick else 7`. -/
def MIRI_ndeg (ndeg_attr : Option Nat) (use_legendre quick : Bool) : Nat :=
  match ndeg_attr with
  | some n => n
  | none =>
    if use_legendre then
      (if quick then 4 else 7)
    else
      (if quick then 4 else 7)

/-! ### Claim C10: `_check_list` (webbpsf_ext_core.py lines 1219-1234) -/

/-- Python values that appear in the allowed-value lists handed to
`_check_list` (booleans, strings, numbers, and `None`). -/
inductive PyVal where
  | pynone : PyVal
  | pybool : Bool → PyVal
  | pystr : String → PyVal
  | pynum : ℚ → PyVal
  deriving DecidableEq, Repr

/-- Python `str(value)` rendering used while building the error message. -/
def pyValStr : PyVal → String
  | .pynone => "None"
  | .pybool b => if b then "True" else "False"
  | .pystr s => s
  | .pynum q => toString q

/-- In-place update `temp_list[temp_list.index(None)] = str_None`: replace
the first occurrence of `None` by the string "None". -/
def replaceFirstNone : List PyVal → List PyVal
  | [] => []
  | .pynone :: rest => .pystr "None" :: rest
  | v :: rest => v :: replaceFirstNone rest

/-- Embedding of `_check_list(value, temp_list, var_name)`.  The first
component is the outcome (`ValueError` message on rejection); the second
component is the state of the caller-supplied list object after the call,
reflecting the in-place mutation performed while formatting the error. -/
def check_list (value : PyVal) (temp_list : List PyVal) (var_name : Option String) :
    Except String Unit × List PyVal :=
  if value ∈ temp_list then
    (.ok (), temp_list)
  else
    let temp_list :=
      if PyVal.pynone ∈ temp_list then replaceFirstNone temp_list else temp_list
    let temp_list2 := temp_list.map pyValStr
    let vn := match var_name with | none => "" | some s => s ++ " "
    let err_str := "Invalid " ++ vn ++ "setting: " ++ pyValStr value ++
      " \n\tValid values are: " ++ String.intercalate ", " temp_list2
    (.error err_str, temp_list)

/-! ### Claim C7: polar conversions (`coords.py` lines 48-100) -/

/-- Embedding of the scalar path of `coords.xy_to_rtheta`.  The numpy
routines `np.sqrt` and `np.arctan2(a, b) * 180 / np.pi` (the
degrees-valued arctangent) are external library calls, supplied as the
parameters `np_sqrt` and `atan2_deg`.  In the scalar branch
(`np.size(r) == 1`) the source rebinds the local variables `x` and `y`
when they are within machine epsilon of zero, then returns `(r, theta)`,
which were computed before the rebinding. -/
def xy_to_rtheta (np_sqrt : ℚ → ℚ) (atan2_deg : ℚ → ℚ → ℚ) (x y : ℚ) : ℚ × ℚ :=
  let r := np_sqrt (x ^ 2 + y ^ 2)
  let theta := atan2_deg (-x) y
  let x := if |x| < npEps then 0 else x
  let y := if |y| < npEps then 0 else y
  (r, theta)

/-- Embedding of the array path of `coords.xy_to_rtheta`: elements of the
output arrays `r` and `theta` within machine epsilon of zero are set to
exactly zero. -/
def xy_to_rtheta_array (np_sqrt : ℚ → ℚ) (atan2_deg : ℚ → ℚ → ℚ)
    (xy : List (ℚ × ℚ)) : List ℚ × List ℚ :=
  let r := xy.map (fun p => np_sqrt (p.1 ^ 2 + p.2 ^ 2))
  let theta := xy.map (fun p => atan2_deg (-p.1) p.2)
  (r.map (fun v => if |v| < npEps then 0 else v),
   theta.map (fun v => if |v| < npEps then 0 else v))

/-- Embedding of the scalar path of `coords.rtheta_to_xy`.  The numpy
routines `np.sin(theta*pi/180)` and `np.cos(theta*pi/180)` are supplied as
the parameters `sin_deg` and `cos_deg`.  Here the snap to exact zero is
applied to the returned values `x` and `y` themselves. -/
def rtheta_to_xy (sin_deg cos_deg : ℚ → ℚ) (r theta : ℚ) : ℚ × ℚ :=
  let x := -r * sin_deg theta
  let y := r * cos_deg theta
  let x := if |x| < npEps then 0 else x
  let y := if |y| < npEps then 0 else y
  (x, y)

/-! ### Claim C6: WFE drift decomposition (`_drift_opd`, lines 1503-1569) -/

/-- Result of `_drift_opd`: the `wfe_dict` sub-amplitudes, plus the
arguments `(delta_time in minutes, case, scaling)` of the
`opd.thermal_slew` call, or `none` when the drift branch was not taken
and no perturbation was applied at all. -/
structure WfeDriftDict where
  therm : ℚ
  frill : ℚ
  iec : ℚ
  slew : Option (ℚ × String × ℚ)

/-- Embedding of `_drift_opd` (webbpsf_ext_core.py lines 1526-1569).  The
whole decomposition is guarded by `if (wfe_drift > 0)`; the negation
sub-branch `if wfe_drift < 0` sits inside that guard, verbatim from the
source.  `np.sqrt` is the external parameter `np_sqrt`. -/
def drift_opd (np_sqrt : ℚ → ℚ) (wfe_drift : ℚ) : WfeDriftDict :=
  if 0 < wfe_drift then
    let wfe_iec : ℚ := if 2 < |wfe_drift| then 1 else 0
    let wfe_remain_var := wfe_drift ^ 2 - wfe_iec ^ 2
    let wfe_frill := np_sqrt ((0.8 : ℚ) * wfe_remain_var)
    let wfe_therm := np_sqrt ((0.2 : ℚ) * wfe_remain_var)
    let sgn :=
      if wfe_drift < 0 then (-wfe_frill, -wfe_therm, -wfe_iec)
      else (wfe_frill, wfe_therm, wfe_iec)
    let wfe_frill := sgn.1
    let wfe_therm := sgn.2.1
    let wfe_iec := sgn.2.2
    let delta_time : ℚ := 14 * 24 * 60
    let wfe_scale := wfe_therm / 24
    let delta_time := if wfe_scale = 0 then 0 else delta_time
    { therm := wfe_therm, frill := wfe_frill, iec := wfe_iec,
      slew := some (delta_time, "BOL", wfe_scale) }
  else
    { therm := 0, frill := 0, iec := 0, slew := none }

/-- Decomposition as stated by claim C6: computed for every requested
amplitude `d`, with all three sub-terms negated when `d < 0`.  Returned as
`(iec, frill, therm)`. -/
def drift_decomp_claimed (np_sqrt : ℚ → ℚ) (d : ℚ) : ℚ × ℚ × ℚ :=
  let iec : ℚ := if 2 < |d| then 1 else 0
  let frill := np_sqrt ((0.8 : ℚ) * (d ^ 2 - iec ^ 2))
  let therm := np_sqrt ((0.2 : ℚ) * (d ^ 2 - iec ^ 2))
  if d < 0 then (-iec, -frill, -therm) else (iec, frill, therm)

/-! ### Claim C3: reference point of the correction-model residuals -/

/-- Default drift-amplitude list of `gen_wfedrift_coeff` (nm), from the
keyword default `wfe_list=[0,1,2,5,10,20,40]`. -/
def wfe_default_list : List ℚ := [0, 1, 2, 5, 10, 20, 40]

/-- Residuals relative to the first entry: `cf_wfe = cf_wfe - cf_wfe[0]`
(webbpsf_ext_core.py line 1999, and line 1979 for the off-axis series). -/
def sub_index0 (cs : List Cube) : List Cube := cs.map (fun c => c - cs.headD 0)

/-- Pair list produced by `np.meshgrid(first, second)` followed by
`reshape([2,-1]).transpose()`: the values of the first argument vary
fastest. -/
def meshgrid_pairs (first second : List ℚ) : List (ℚ × ℚ) :=
  (second.map (fun b => first.map (fun a => (a, b)))).flatten

/-- MIRI FQPM mask-shift ladder (`_gen_wfemask_coeff` line 2254):
`-1 * np.array([...])`, first element reset to exactly 0, then reversed
into ascending order. -/
def miri_fqpm_offsets : List ℚ :=
  ((([0, 0.005, 0.01, 0.08, 0.10, 0.2, 0.5, 1, 10, 12] : List ℚ).map
    (fun v => -1 * v)).set 0 0).reverse

/-- MIRI Lyot mask-shift ladder (line 2257), same construction. -/
def miri_lyot_offsets : List ℚ :=
  ((([0, 0.01, 0.1, 0.36, 0.5, 1, 2.1, 10, 15] : List ℚ).map
    (fun v => -1 * v)).set 0 0).reverse

/-- NIRCam round-mask shift ladder (lines 2276-2287): inner/mid/outer
radii concatenated, the mid radii scaled per filter (0.488 for 210R,
0.779 for 335R, 1 for 430R), negated, first element reset to 0,
reversed into ascending order. -/
def nrc_round_offsets (mid_scale : ℚ) : List ℚ :=
  let xy_inner : List ℚ := [0, 0.015, 0.02, 0.05, 0.1]
  let xy_mid := ([0.6, 1.2, 2, 2.5] : List ℚ).map (fun v => v * mid_scale)
  let xy_outer : List ℚ := [5.0, 8.0]
  ((((xy_inner ++ xy_mid) ++ xy_outer).map (fun v => -1 * v)).set 0 0).reverse

/-- NIRCam bar-mask x (along-wedge) offsets (lines 2305-2308):
`x_offsets = -1 * x_offsets[::-1]` applied to `[-8, -6, ..., 8]`. -/
def nrc_bar_x_offsets : List ℚ :=
  (([-8, -6, -4, -2, 0, 2, 4, 6, 8] : List ℚ).reverse).map (fun v => -1 * v)

/-- NIRCam bar-mask y (cross-wedge) offsets (lines 2299-2309):
inner/mid/outer distances concatenated (mid scaled by 0.488 for SW
masks, parameterised here), then `-1 * y_offsets[::-1]`. -/
def nrc_bar_y_offsets (sw_scale : ℚ) : List ℚ :=
  let y_inner : List ℚ := [0, 0.01, 0.02, 0.05, 0.1]
  let y_mid := ([0.6, 1.2, 2, 2.5] : List ℚ).map (fun v => v * sw_scale)
  let y_outer : List ℚ := [5, 8]
  (((y_inner ++ y_mid) ++ y_outer).reverse).map (fun v => -1 * v)

/-- Offset-pair enumeration for MIRI masks:
`np.meshgrid(y_offsets, x_offsets)` with `x_offsets = y_offsets`. -/
def miri_xy_list (offsets : List ℚ) : List (ℚ × ℚ) :=
  meshgrid_pairs offsets offsets

/-- Offset-pair enumeration for NIRCam round masks:
`np.meshgrid(x_offsets, y_offsets)` with equal axis ladders. -/
def nrc_round_xy_list (mid_scale : ℚ) : List (ℚ × ℚ) :=
  meshgrid_pairs (nrc_round_offsets mid_scale) (nrc_round_offsets mid_scale)

/-- Offset-pair enumeration for NIRCam bar masks:
`np.meshgrid(x_offsets, y_offsets)`. -/
def nrc_bar_xy_list (sw_scale : ℚ) : List (ℚ × ℚ) :=
  meshgrid_pairs nrc_bar_x_offsets (nrc_bar_y_offsets sw_scale)

/-- Small-grid-dither deferral test for MIRI grids (line 2270). -/
def miri_ind_sgd (p : ℚ × ℚ) : Bool :=
  decide (|p.1| ≤ 0.01 ∧ |p.2| ≤ 0.01 ∧ ¬(|p.1| = 0 ∧ |p.2| = 0))

/-- Small-grid-dither deferral test for NIRCam round-mask grids
(line 2295). -/
def nrc_round_ind_sgd (p : ℚ × ℚ) : Bool :=
  decide (|p.1| ≤ 0.02 ∧ |p.2| ≤ 0.02 ∧ ¬(|p.1| = 0 ∧ |p.2| = 0))

/-- Small-grid-dither deferral test for NIRCam bar-mask grids
(lines 2315-2316): `ind_zero` keys on the y offset alone. -/
def nrc_bar_ind_sgd (p : ℚ × ℚ) : Bool :=
  decide (|p.2| ≤ 0.02 ∧ ¬ |p.2| = 0)

/-- First sweep of `_gen_wfemask_coeff` (lines 2322-2332): SGD-deferred
grid points receive a zero placeholder cube; every other point gets a
freshly generated coefficient cube.  `gen` models `gen_psf_coeff` as a
function of the `coron_shift_x/y` options. -/
def wfemask_first_sweep (gen : ℚ × ℚ → Cube) (ind_sgd : ℚ × ℚ → Bool)
    (xy_list : List (ℚ × ℚ)) : List Cube :=
  xy_list.map (fun p => if ind_sgd p then 0 else gen p)

/-- Residual computation of `_gen_wfemask_coeff` lines 2348-2350:
`coeff0 = cf_all[-1]` (the source comment reads: (0,0) is in final
position) and `cf_resid = cf_all - coeff0`; each residual is paired here
with its mask-shift offset. -/
def wfemask_resid (gen : ℚ × ℚ → Cube) (ind_sgd : ℚ × ℚ → Bool)
    (xy_list : List (ℚ × ℚ)) : List ((ℚ × ℚ) × Cube) :=
  let cf_all := wfemask_first_sweep gen ind_sgd xy_list
  let coeff0 := cf_all.getLastD 0
  xy_list.zip (cf_all.map (fun c => c - coeff0))

/-- Stored residual at a given offset grid point. -/
def resid_at (resid : List ((ℚ × ℚ) × Cube)) (p : ℚ × ℚ) : Cube :=
  match resid.find? (fun e => decide (e.1 = p)) with
  | some e => e.2
  | none => 0

/-- Demonstration coefficient generator used to evaluate the sweep at a
concrete instance: every pixel of the generated cube equals the x
mask-shift of the sample point.  The sweep subtracts whatever
`gen_psf_coeff` returns, so any generator exhibits the stored-value
structure. -/
def demoMaskGen : ℚ × ℚ → Cube := fun p _ => p.1

/-! ### Claim C5: fov_pix capping in `_gen_wfedrift_coeff` (lines 1913-2019) -/

/-- Mutable instrument state read and written by the WFE-drift sweep. -/
structure DriftSweepState where
  fov_pix : Nat
  oversample : Nat
  image_mask : Option String

/-- Maximum drift-sweep field of view set at construction
(`self._fovmax_wfedrift = 256`, line 1321). -/
def fovmax_wfedrift : Nat := 256

/-- Sequential loop `for wfe_drift in wfe_list: gen_psf_coeff(...)`; a
raised exception aborts the loop and propagates. -/
def sweep (gen : ℚ → Except PyErr Cube) : List ℚ → Except PyErr (List Cube)
  | [] => .ok []
  | w :: ws => do
    let c ← gen w
    let cs ← sweep gen ws
    pure (c :: cs)

/-- Outcome of `_gen_wfedrift_coeff` (the cached / raw / fitted return
shapes). -/
inductive DriftOut where
  | cached : DriftOut
  | raw : List Cube → Option (List Cube) → List ℚ → DriftOut
  | fitted : List Cube → Option (List Cube) → DriftOut

/-- Embedding of `_gen_wfedrift_coeff` (webbpsf_ext_core.py lines
1913-2019).  `gen` models `self.gen_psf_coeff(wfe_drift=..., force=True,
save=False, return_results=True)` as a function of the current image
mask, the current `fov_pix`, and the drift amplitude; it may raise.
`fit` models `jl_poly_fit` at degree 4 over the drift list.  The result
pairs the final mutable instrument state with either the outcome or the
propagating exception; mutations performed before an exception remain in
the returned state, as in Python. -/
def gen_wfedrift_coeff
    (gen : Option String → Nat → ℚ → Except PyErr Cube)
    (fit : List ℚ → List Cube → List Cube)
    (st : DriftSweepState) (wfe_list : List ℚ)
    (file_exists force return_raw : Bool) :
    DriftSweepState × Except PyErr DriftOut :=
  let fov_max := if st.oversample ≤ 4 then fovmax_wfedrift else fovmax_wfedrift / 2
  let fov_pix_orig := st.fov_pix
  let st :=
    if fov_max < st.fov_pix then
      { st with fov_pix := if st.fov_pix % 2 == 0 then fov_max else fov_max + 1 }
    else st
  if !force && file_exists then
    -- cache hit: fov_pix returned to its original size, stored model loaded
    ({ st with fov_pix := fov_pix_orig }, .ok .cached)
  else
    match sweep (gen st.image_mask st.fov_pix) wfe_list with
    | .error e => (st, .error e)
    | .ok cf_wfe =>
      if st.image_mask.isSome then
        -- coronagraphic branch: an off-axis sweep with the image mask removed
        let image_mask_orig := st.image_mask
        let stOff := { st with image_mask := none }
        match sweep (gen stOff.image_mask stOff.fov_pix) wfe_list with
        | .error e => (stOff, .error e)
        | .ok cf_wfe_off =>
          let st := { stOff with image_mask := image_mask_orig }
          let st := { st with fov_pix := fov_pix_orig }
          if return_raw then
            (st, .ok (.raw cf_wfe (some cf_wfe_off) wfe_list))
          else
            let cf_wfe_off := sub_index0 cf_wfe_off
            let cf_fit_off := fit wfe_list cf_wfe_off
            let cf_wfe := sub_index0 cf_wfe
            let cf_fit := fit wfe_list cf_wfe
            (st, .ok (.fitted cf_fit (some cf_fit_off)))
      else
        let st := { st with fov_pix := fov_pix_orig }
        if return_raw then
          (st, .ok (.raw cf_wfe none wfe_list))
        else
          let cf_wfe := sub_index0 cf_wfe
          let cf_fit := fit wfe_list cf_wfe
          (st, .ok (.fitted cf_fit none))

/-- Outcome test used to state the restore property. -/
def isOkB {e a : Type} : Except e a → Bool
  | .ok _ => true
  | .error _ => false

/-- Demonstration generator that always fails, modelling an exception
raised while regenerating coefficients mid-sweep. -/
def failGen : Option String → Nat → ℚ → Except PyErr Cube :=
  fun _ _ _ => .error (.valueError "PSF simulation failed")

/-- Demonstration generator that always succeeds with a constant cube. -/
def okGen : Option String → Nat → ℚ → Except PyErr Cube :=
  fun _ _ w => .ok (fun _ => w)

/-- Demonstration stand-in for the degree-4 `jl_poly_fit` boundary call. -/
def demoFit : List ℚ → List Cube → List Cube := fun _ cs => cs

/-! ### Theorems for claims C2, C10, C7, C6 -/

/-- C2 counterexample: with the `ndeg` attribute unset, NIRCam_ext
defaults to 9 in normal (non-quick) mode — not 7 as the claim states —
and to 7 in quick mode — not 9. -/
theorem C2_ndeg_counterexample :
    NIRCam_ndeg none true false = 9 ∧ NIRCam_ndeg none true false ≠ 7 ∧
    NIRCam_ndeg none true true = 7 ∧ NIRCam_ndeg none true true ≠ 9 := by
  decide

/-- C2 amended: with the `ndeg` attribute unset, NIRCam_ext defaults the
polynomial fit degree to 9 in normal mode and 7 in quick mode, MIRI_ext
defaults to 4 in quick mode and 7 in normal mode, and in both instruments
the default depends only on the quick flag, not on use_legendre. -/
theorem C2_ndeg_defaults (use_legendre quick : Bool) :
    NIRCam_ndeg none use_legendre quick = (if quick then 7 else 9) ∧
    MIRI_ndeg none use_legendre quick = (if quick then 4 else 7) := by
  cases use_legendre <;> cases quick <;> exact ⟨rfl, rfl⟩

theorem replaceFirstNone_ne (l : List PyVal) (h : PyVal.pynone ∈ l) :
    replaceFirstNone l ≠ l := by
  induction l with
  | nil => cases h
  | cons v rest ih =>
    cases v with
    | pynone =>
      intro hEq
      simp [replaceFirstNone] at hEq
    | pybool b =>
      intro hEq
      have hmem : PyVal.pynone ∈ rest := by
        cases h with
        | tail _ hm => exact hm
      simp only [replaceFirstNone, List.cons.injEq, true_and] at hEq
      exact ih hmem hEq
    | pystr s =>
      intro hEq
      have hmem : PyVal.pynone ∈ rest := by
        cases h with
        | tail _ hm => exact hm
      simp only [replaceFirstNone, List.cons.injEq, true_and] at hEq
      exact ih hmem hEq
    | pynum q =>
      intro hEq
      have hmem : PyVal.pynone ∈ rest := by
        cases h with
        | tail _ hm => exact hm
      simp only [replaceFirstNone, List.cons.injEq, true_and] at hEq
      exact ih hmem hEq

/-- C10: when `_check_list` rejects a value and the allowed list contains
None, the caller-supplied list object is mutated in place (its first None
replaced by the string "None") before the ValueError is raised; an
accepted value, or a rejected value against a None-free list (such as the
fresh `[True, False]` lists passed by the quick and ND_acq setters),
leaves the list unchanged. -/
theorem C10_check_list_mutation (value : PyVal) (l : List PyVal)
    (var_name : Option String) :
    (value ∈ l → check_list value l var_name = (.ok (), l)) ∧
    (value ∉ l → PyVal.pynone ∈ l →
      (check_list value l var_name).2 = replaceFirstNone l ∧
      (check_list value l var_name).2 ≠ l ∧
      ∃ msg, (check_list value l var_name).1 = .error msg) ∧
    (value ∉ l → PyVal.pynone ∉ l →
      (check_list value l var_name).2 = l ∧
      ∃ msg, (check_list value l var_name).1 = .error msg) := by
  refine ⟨fun hmem => ?_, fun hno hnone => ?_, fun hno hnone => ?_⟩
  · simp [check_list, hmem]
  · refine ⟨?_, ?_, ?_⟩
    · simp [check_list, hno, hnone]
    · simp only [check_list, if_neg hno, if_pos hnone]
      exact replaceFirstNone_ne l hnone
    · simp [check_list, hno, hnone]
  · refine ⟨?_, ?_⟩
    · simp [check_list, hno, hnone]
    · simp [check_list, hno, hnone]

/-- C10 witness: a rejected value against a shared list containing None
corrupts the list; the fresh boolean list of the quick setter is accepted
unchanged. -/
theorem C10_check_list_mutation_witness :
    (check_list (.pystr "x") [.pynone, .pybool true] (some "ND_acq")).2
      = [.pystr "None", .pybool true] ∧
    check_list (.pybool true) [.pybool true, .pybool false] (some "quick")
      = (.ok (), [.pybool true, .pybool false]) := by
  constructor
  · have h := (C10_check_list_mutation (.pystr "x") [.pynone, .pybool true]
      (some "ND_acq")).2.1 (by decide) (by decide)
    rw [h.1]
    rfl
  · exact (C10_check_list_mutation (.pybool true) [.pybool true, .pybool false]
      (some "quick")).1 (by decide)

/-- C7 (code-bug evidence): the scalar path of `xy_to_rtheta` at
(x, y) = (0, 2^-53) returns radius 2^-53, which is strictly inside
machine epsilon yet is not snapped to zero, because the source snaps the
discarded locals x and y instead of the returned r and theta.  The
degrees-valued arctangent routine cannot influence the radius output and
is universally quantified.  By contrast, `rtheta_to_xy` does snap the
values it returns, on both code paths. -/
theorem C7_scalar_radius_not_snapped (atan2_deg : ℚ → ℚ → ℚ) :
    (xy_to_rtheta Rat.sqrt atan2_deg 0 (1 / 2 ^ 53)).1 = 1 / 2 ^ 53 ∧
    |(1 / 2 ^ 53 : ℚ)| < npEps ∧
    (1 / 2 ^ 53 : ℚ) ≠ 0 ∧
    (∀ sin_deg cos_deg r theta,
      rtheta_to_xy sin_deg cos_deg r theta =
        (if |(-r * sin_deg theta : ℚ)| < npEps then 0 else -r * sin_deg theta,
         if |(r * cos_deg theta : ℚ)| < npEps then 0 else r * cos_deg theta)) := by
  refine ⟨?_, ?_, by norm_num, fun _ _ _ _ => rfl⟩
  · show Rat.sqrt ((0 : ℚ) ^ 2 + (1 / 2 ^ 53) ^ 2) = 1 / 2 ^ 53
    have h : ((0 : ℚ) ^ 2 + (1 / 2 ^ 53) ^ 2) = (1 / 2 ^ 53 : ℚ) * (1 / 2 ^ 53) := by
      ring
    rw [h, Rat.sqrt_eq]
    norm_num
  · rw [npEps]
    rw [abs_of_pos (by norm_num)]
    norm_num

/-- C6 counterexample: at requested drift d = -5 the code performs no
decomposition at all (the whole decomposition is inside
`if wfe_drift > 0`, so the negation sub-branch is unreachable): all three
sub-terms are zero and no thermal slew is applied, while the claimed
formula yields iec = -1. -/
theorem C6_negative_drift_counterexample :
    (drift_opd Rat.sqrt (-5)).iec = 0 ∧
    (drift_opd Rat.sqrt (-5)).frill = 0 ∧
    (drift_opd Rat.sqrt (-5)).therm = 0 ∧
    (drift_opd Rat.sqrt (-5)).slew = none ∧
    (drift_decomp_claimed Rat.sqrt (-5)).1 = -1 ∧
    ((0 : ℚ) ≠ -1) := by
  refine ⟨?_, ?_, ?_, ?_, ?_, by norm_num⟩ <;>
    norm_num [drift_opd, drift_decomp_claimed]

/-- C6 amended: for strictly positive requested drift the decomposition
is as claimed (1 nm to the IEC heaters when the amplitude exceeds 2 nm,
the remaining variance split 80/20 between frill and thermal, a 14-day
BOL thermal slew scaled by therm/24 with zero elapsed time when the
scaling is zero); for non-positive drift nothing is decomposed or
applied, the negation branch of the source being unreachable. -/
theorem C6_drift_decomposition (np_sqrt : ℚ → ℚ) (d : ℚ) :
    (0 < d →
      drift_opd np_sqrt d =
        { iec := if 2 < d then 1 else 0,
          frill := np_sqrt ((0.8 : ℚ) * (d ^ 2 - (if 2 < d then (1 : ℚ) else 0) ^ 2)),
          therm := np_sqrt ((0.2 : ℚ) * (d ^ 2 - (if 2 < d then (1 : ℚ) else 0) ^ 2)),
          slew := some
            ((if np_sqrt ((0.2 : ℚ) * (d ^ 2 - (if 2 < d then (1 : ℚ) else 0) ^ 2)) / 24 = 0
                then 0 else 14 * 24 * 60),
             "BOL",
             np_sqrt ((0.2 : ℚ) * (d ^ 2 - (if 2 < d then (1 : ℚ) else 0) ^ 2)) / 24) }) ∧
    (d ≤ 0 → drift_opd np_sqrt d = { therm := 0, frill := 0, iec := 0, slew := none }) := by
  constructor
  · intro hd
    simp only [drift_opd, if_pos hd, abs_of_pos hd, if_neg (not_lt.mpr hd.le)]
  · intro hd
    simp only [drift_opd, if_neg (not_lt.mpr hd)]

/-- C6 witness: at d = 9 nm the remaining variance is 80, giving frill
sqrt(64) = 8 and therm sqrt(16) = 4, with a 14-day slew scaled by 4/24;
at d = -3 nm everything is zero. -/
theorem C6_drift_decomposition_witness :
    drift_opd Rat.sqrt 9 =
      { iec := 1, frill := 8, therm := 4, slew := some (14 * 24 * 60, "BOL", 4 / 24) } ∧
    drift_opd Rat.sqrt (-3) = { therm := 0, frill := 0, iec := 0, slew := none } := by
  constructor
  · have h := (C6_drift_decomposition Rat.sqrt 9).1 (by norm_num)
    rw [h]
    have h8 : Rat.sqrt ((0.8 : ℚ) * ((9 : ℚ) ^ 2 - (if (2 : ℚ) < 9 then (1 : ℚ) else 0) ^ 2)) = 8 := by
      have hv : ((0.8 : ℚ) * ((9 : ℚ) ^ 2 - (if (2 : ℚ) < 9 then (1 : ℚ) else 0) ^ 2))
          = (8 : ℚ) * 8 := by norm_num
      rw [hv, Rat.sqrt_eq]
      norm_num
    have h4 : Rat.sqrt ((0.2 : ℚ) * ((9 : ℚ) ^ 2 - (if (2 : ℚ) < 9 then (1 : ℚ) else 0) ^ 2)) = 4 := by
      have hv : ((0.2 : ℚ) * ((9 : ℚ) ^ 2 - (if (2 : ℚ) < 9 then (1 : ℚ) else 0) ^ 2))
          = (4 : ℚ) * 4 := by norm_num
      rw [hv, Rat.sqrt_eq]
      norm_num
    rw [h8, h4]
    norm_num
  · exact (C6_drift_decomposition Rat.sqrt (-3)).2 (by norm_num)

/-! ### Theorems for claims C3 and C5 -/

/-- C3 (code-bug evidence).  Positive parts: the drift residual series
stores an exactly zero residual at its first (zero-drift) entry for every
generator, and for the MIRI FQPM, MIRI Lyot and NIRCam round-mask grids
the origin (0,0) really is the final enumerated position, so the
subtraction `cf_all - cf_all[-1]` pins the origin residual to exactly
zero.  Failing part: for NIRCam bar masks the final enumerated position
is (8, 0), not the origin — contradicting the source comment next to
`coeff0 = cf_all[-1]` — so the stored residual at the origin equals
`cube(0,0) - cube(8,0)`, which is not structurally zero: with the
demonstration generator it evaluates to -8. -/
theorem meshgrid_pairs_nil (A : List ℚ) : meshgrid_pairs A [] = [] := rfl

theorem meshgrid_pairs_cons (A : List ℚ) (c : ℚ) (B : List ℚ) :
    meshgrid_pairs A (c :: B) = (A.map (fun x => (x, c))) ++ meshgrid_pairs A B := by
  simp [meshgrid_pairs]

theorem meshgrid_pairs_getLast (A : List ℚ) (a : ℚ) (hA : A.getLast? = some a) :
    ∀ (B : List ℚ) (b : ℚ), B.getLast? = some b →
      (meshgrid_pairs A B).getLast? = some (a, b)
  | [], b => by simp
  | [c], b => by
    intro hB
    simp only [List.getLast?_singleton, Option.some.injEq] at hB
    subst hB
    simp [meshgrid_pairs_cons, meshgrid_pairs_nil, List.getLast?_map, hA]
  | c :: d :: cs, b => by
    intro hB
    have hB2 : (d :: cs).getLast? = some b := by
      rwa [List.getLast?_cons_cons] at hB
    have ih := meshgrid_pairs_getLast A a hA (d :: cs) b hB2
    rw [meshgrid_pairs_cons, List.getLast?_append, ih]
    rfl

theorem mem_meshgrid_pairs (A B : List ℚ) (x y : ℚ) (hx : x ∈ A) (hy : y ∈ B) :
    (x, y) ∈ meshgrid_pairs A B := by
  rw [meshgrid_pairs, List.mem_flatten]
  exact ⟨A.map (fun a => (a, y)), List.mem_map_of_mem _ hy, List.mem_map_of_mem _ hx⟩

theorem wfemask_resid_eq_map (gen : ℚ × ℚ → Cube) (ind : ℚ × ℚ → Bool)
    (xy : List (ℚ × ℚ)) :
    wfemask_resid gen ind xy =
      xy.map (fun p => (p, (if ind p then 0 else gen p) -
        (xy.map (fun q => if ind q then 0 else gen q)).getLastD 0)) := by
  show (xy.zip ((xy.map (fun p => if ind p then 0 else gen p)).map
      (fun c => c - (xy.map (fun p => if ind p then 0 else gen p)).getLastD 0))) = _
  rw [List.map_map]
  conv_lhs => rw [show xy.zip = (xy.map id).zip from by rw [List.map_id]]
  rw [List.zip_map']
  rfl

/-- Stored residual of the mask sweep at a grid point present in the
enumeration: the generated cube minus the cube generated at the final
enumerated position. -/
theorem resid_at_eq (gen : ℚ × ℚ → Cube) (ind : ℚ × ℚ → Bool)
    (xy : List (ℚ × ℚ)) (p q : ℚ × ℚ)
    (hlast : xy.getLast? = some q) (hq : ind q = false)
    (hp : p ∈ xy) (hpi : ind p = false) :
    resid_at (wfemask_resid gen ind xy) p = gen p - gen q := by
  have hc0 : (xy.map (fun r => if ind r then 0 else gen r)).getLastD 0 = gen q := by
    rw [List.getLastD_eq_getLast?, List.getLast?_map, hlast]
    simp [hq]
  have hfind : ∃ a, xy.find? (fun r => decide (r = p)) = some a := by
    have : (xy.find? (fun r => decide (r = p))).isSome = true := by
      rw [List.find?_isSome]
      exact ⟨p, hp, by simp⟩
    exact Option.isSome_iff_exists.mp this
  obtain ⟨a, ha⟩ := hfind
  have hap : a = p := by
    have := List.find?_some ha
    simpa using this
  unfold resid_at
  rw [wfemask_resid_eq_map, List.find?_map]
  have hcomp : ((fun e : (ℚ × ℚ) × Cube => decide (e.1 = p)) ∘
      (fun r => (r, (if ind r then 0 else gen r) -
        (xy.map (fun s => if ind s then 0 else gen s)).getLastD 0)))
      = (fun r => decide (r = p)) := rfl
  rw [hcomp, ha, hap]
  simp [hc0, hpi]
  rw [hlast]
  simp [hq]

/-- Last element of the NIRCam bar-mask x-offset ladder: 8, not 0. -/
theorem nrc_bar_x_offsets_getLast : nrc_bar_x_offsets.getLast? = some 8 := by
  rw [nrc_bar_x_offsets, List.getLast?_map, List.getLast?_reverse]
  norm_num

/-- Last element of the NIRCam bar-mask y-offset ladder: 0. -/
theorem nrc_bar_y_offsets_getLast (sw_scale : ℚ) :
    (nrc_bar_y_offsets sw_scale).getLast? = some 0 := by
  rw [nrc_bar_y_offsets]
  rw [List.getLast?_map, List.getLast?_reverse]
  norm_num

theorem C3_resid_reference_point :
    (∀ gen : ℚ → Cube, (sub_index0 (wfe_default_list.map gen)).head? = some 0) ∧
    (miri_xy_list miri_fqpm_offsets).getLast? = some (0, 0) ∧
    (miri_xy_list miri_lyot_offsets).getLast? = some (0, 0) ∧
    (nrc_round_xy_list 1).getLast? = some (0, 0) ∧
    (nrc_bar_xy_list 1).getLast? = some (8, 0) ∧
    resid_at (wfemask_resid demoMaskGen nrc_bar_ind_sgd (nrc_bar_xy_list 1)) (0, 0) 0 = -8 ∧
    ((-8 : ℚ) ≠ 0) := by
  have hx8 := nrc_bar_x_offsets_getLast
  have hy0 := nrc_bar_y_offsets_getLast 1
  have hbar : (nrc_bar_xy_list 1).getLast? = some (8, 0) :=
    meshgrid_pairs_getLast _ _ hx8 _ _ hy0
  have hsgd8 : nrc_bar_ind_sgd (8, 0) = false := by
    simp [nrc_bar_ind_sgd]
  have hsgd0 : nrc_bar_ind_sgd (0, 0) = false := by
    simp [nrc_bar_ind_sgd]
  have hmemx : (0 : ℚ) ∈ nrc_bar_x_offsets := by
    rw [nrc_bar_x_offsets, List.mem_map]
    refine ⟨0, ?_, by norm_num⟩
    rw [List.mem_reverse]
    norm_num
  have hmemy : (0 : ℚ) ∈ nrc_bar_y_offsets 1 := by
    rw [nrc_bar_y_offsets, List.mem_map]
    refine ⟨0, ?_, by norm_num⟩
    rw [List.mem_reverse]
    norm_num
  have hmem : ((0 : ℚ), (0 : ℚ)) ∈ nrc_bar_xy_list 1 :=
    mem_meshgrid_pairs _ _ _ _ hmemx hmemy
  have hval := resid_at_eq demoMaskGen nrc_bar_ind_sgd (nrc_bar_xy_list 1)
    (0, 0) (8, 0) hbar hsgd8 hmem hsgd0
  refine ⟨?_, by decide, by decide, by decide, hbar, ?_, by norm_num⟩
  · intro gen
    simp [sub_index0, wfe_default_list, sub_self]
  · rw [hval]
    show demoMaskGen (0, 0) 0 - demoMaskGen (8, 0) 0 = -8
    norm_num [demoMaskGen]

/-- C5 counterexample: with fov_pix = 640 (over the 256 cap, oversample
2) and an exception raised while regenerating coefficients mid-sweep,
`gen_wfedrift_coeff` propagates the exception with fov_pix still capped
at 256: the temporary cap is not restored on the exception path, since
the source has no try/finally around the sweep. -/
theorem C5_exception_leaves_fov_capped :
    (gen_wfedrift_coeff failGen demoFit ⟨640, 2, none⟩ wfe_default_list
      false true false).1.fov_pix = 256 ∧
    (gen_wfedrift_coeff failGen demoFit ⟨640, 2, none⟩ wfe_default_list
      false true false).1.fov_pix ≠ 640 ∧
    (gen_wfedrift_coeff failGen demoFit ⟨640, 2, none⟩ wfe_default_list
      false true false).2 = .error (.valueError "PSF simulation failed") := by
  refine ⟨by decide, by decide, ?_⟩
  rfl

/-- C5 amended: on every successful exit path of the drift sweep — cache
hit, raw return, or completed fit, with or without a coronagraphic mask —
fov_pix is restored to its pre-call value (the exception path is the one
exit that does not restore it). -/
theorem gen_wfedrift_coeff_error_or_restored
    (gen : Option String → Nat → ℚ → Except PyErr Cube)
    (fit : List ℚ → List Cube → List Cube)
    (st : DriftSweepState) (wfe_list : List ℚ) (fe force rr : Bool)
    (res : DriftSweepState × Except PyErr DriftOut)
    (hres : gen_wfedrift_coeff gen fit st wfe_list fe force rr = res) :
    (∃ e, res.2 = Except.error e) ∨ res.1.fov_pix = st.fov_pix := by
  unfold gen_wfedrift_coeff at hres
  simp only [] at hres
  repeat' split at hres
  all_goals rw [← hres]
  all_goals first
    | (right; rfl)
    | (left; exact ⟨_, rfl⟩)

theorem C5_fov_restored_on_success
    (gen : Option String → Nat → ℚ → Except PyErr Cube)
    (fit : List ℚ → List Cube → List Cube)
    (st : DriftSweepState) (wfe_list : List ℚ) (fe force rr : Bool)
    (h : isOkB (gen_wfedrift_coeff gen fit st wfe_list fe force rr).2 = true) :
    (gen_wfedrift_coeff gen fit st wfe_list fe force rr).1.fov_pix = st.fov_pix := by
  rcases gen_wfedrift_coeff_error_or_restored gen fit st wfe_list fe force rr
    (gen_wfedrift_coeff gen fit st wfe_list fe force rr) rfl with ⟨e, he⟩ | hok
  · rw [he] at h
    simp [isOkB] at h
  · exact hok

/-- C5 witness: a successful coronagraphic sweep at fov_pix = 640
finishes with fov_pix = 640 again. -/
theorem C5_fov_restored_on_success_witness :
    (gen_wfedrift_coeff okGen demoFit ⟨640, 2, some "MASK335R"⟩ wfe_default_list
      false true false).1.fov_pix = 640 := by
  exact C5_fov_restored_on_success okGen demoFit ⟨640, 2, some "MASK335R"⟩
    wfe_default_list false true false (by rfl)

/-! ### Claim C8: `pad_or_cut_to_size` (image_manip.py lines 27-185) -/

/-- Two-dimensional numpy array: a shape and a total valuation function;
entries outside the shape are irrelevant, and array equality is stated
pointwise over the shape. -/
structure NpArray2 where
  ny : Nat
  nx : Nat
  val : Nat → Nat → ℚ

/-- Slice start index `int(|d|/2 + 0.5)` computed by the source in
floating point from the integer shape difference `d`: exact binary
halving plus 0.5 and truncation equals `(d + 1) / 2` in natural-number
arithmetic. -/
def halfOffset (d : Nat) : Nat := (d + 1) / 2

/-- Slice start computation of `pad_or_cut_to_size` lines 120-140: grow
and shrink direction each take `halfOffset` of the positive difference,
with 0 for equal sizes. -/
def sliceStart (n n_new : Nat) : Nat :=
  if n_new > n then halfOffset (n_new - n)
  else if n > n_new then halfOffset (n - n_new)
  else 0

/-- Embedding of `fshift` on a 2-D array (image_manip.py lines 247-293):
when both shifts are within 1e-5 of zero (`np.isclose(..., atol=1e-5)`)
the input is returned unchanged; otherwise the roll-and-interpolate core
runs, modelled by the parameter `core` (the round-trip claim only ever
reaches the zero-shift fast path). -/
def fshift2 (core : (Nat → Nat → ℚ) → ℚ → ℚ → ℚ → Nat → Nat → ℚ)
    (im : Nat → Nat → ℚ) (delx dely cval : ℚ) : Nat → Nat → ℚ :=
  if |delx| ≤ 1e-5 ∧ |dely| ≤ 1e-5 then im else core im delx dely cval

/-- Embedding of the 2-D path of `pad_or_cut_to_size`.  Fidelity notes:
the early equal-shape return at line 95 compares the reshaped 3-D shape
tuple against the 2-D target tuple, so it never fires and the general
cases below cover equal shapes (Case 1 with zero margins); the output is
zero-initialised then incremented by `fill_val`, and the source window is
assigned over it; `offset_vals=None` gives zero shifts. -/
def pad_or_cut_to_size
    (core : (Nat → Nat → ℚ) → ℚ → ℚ → ℚ → Nat → Nat → ℚ)
    (a : NpArray2) (new_shape : Nat × Nat) (fill_val : ℚ)
    (offset_vals : Option (ℚ × ℚ)) : NpArray2 :=
  let ny := a.ny
  let nx := a.nx
  let ny_new := new_shape.1
  let nx_new := new_shape.2
  let offs := offset_vals.getD (0, 0)
  let ny_off := offs.1
  let nx_off := offs.2
  let n0 := sliceStart nx nx_new
  let m0 := sliceStart ny ny_new
  if nx_new ≥ nx ∧ ny_new ≥ ny then
    -- Case 1: both axes grow or stay: assign the array into the
    -- fill-initialised output window, then fshift
    let base : Nat → Nat → ℚ := fun i j =>
      if m0 ≤ i ∧ i < m0 + ny ∧ n0 ≤ j ∧ j < n0 + nx then
        a.val (i - m0) (j - n0)
      else fill_val
    ⟨ny_new, nx_new, fshift2 core base nx_off ny_off fill_val⟩
  else if nx_new ≤ nx ∧ ny_new ≤ ny then
    -- Case 2: both axes shrink or stay: shift first when offsets are
    -- nonzero, then slice
    if nx_off ≠ 0 ∨ ny_off ≠ 0 then
      let shifted := fshift2 core a.val nx_off ny_off fill_val
      ⟨ny_new, nx_new, fun i j => shifted (m0 + i) (n0 + j)⟩
    else
      ⟨ny_new, nx_new, fun i j => a.val (m0 + i) (n0 + j)⟩
  else if nx_new ≤ nx ∧ ny_new ≥ ny then
    -- Case 3: x shrinks, y grows: x-shift, x-slice into the grown rows,
    -- then y-fshift
    let xs := if nx_off ≠ 0 then fshift2 core a.val nx_off 0 fill_val else a.val
    let base : Nat → Nat → ℚ := fun i j =>
      if m0 ≤ i ∧ i < m0 + ny then xs (i - m0) (n0 + j) else fill_val
    ⟨ny_new, nx_new, fshift2 core base 0 ny_off fill_val⟩
  else
    -- Case 4: x grows, y shrinks
    let ys := if ny_off ≠ 0 then fshift2 core a.val 0 ny_off fill_val else a.val
    let base : Nat → Nat → ℚ := fun i j =>
      if n0 ≤ j ∧ j < n0 + nx then ys (m0 + i) (j - n0) else fill_val
    ⟨ny_new, nx_new, fshift2 core base nx_off 0 fill_val⟩

/-- Demonstration stand-in for the roll-and-interpolate core of `fshift`;
unreachable at zero shifts. -/
def demoShiftCore : (Nat → Nat → ℚ) → ℚ → ℚ → ℚ → Nat → Nat → ℚ :=
  fun im _ _ _ => im

/-- Concrete 2 x 3 array used by the witness. -/
def demoArr : NpArray2 := ⟨2, 3, fun i j => (10 * i + j : ℚ)⟩

theorem fshift2_zero (core : (Nat → Nat → ℚ) → ℚ → ℚ → ℚ → Nat → Nat → ℚ)
    (im : Nat → Nat → ℚ) (cval : ℚ) : fshift2 core im 0 0 cval = im := by
  rw [fshift2, if_pos]
  constructor <;> norm_num

theorem sliceStart_of_le {n N : Nat} (h : n ≤ N) :
    sliceStart n N = halfOffset (N - n) := by
  rcases Nat.lt_or_ge n N with hlt | hge
  · rw [sliceStart, if_pos hlt]
  · have hEq : n = N := Nat.le_antisymm h hge
    subst hEq
    simp [sliceStart, halfOffset]

theorem sliceStart_of_ge {n N : Nat} (h : N ≤ n) :
    sliceStart n N = halfOffset (n - N) := by
  rcases Nat.lt_or_ge N n with hlt | hge
  · rw [sliceStart, if_neg (by omega), if_pos hlt]
  · have hEq : n = N := Nat.le_antisymm hge h
    subst hEq
    simp [sliceStart, halfOffset]

theorem pad_grow_eq (core : (Nat → Nat → ℚ) → ℚ → ℚ → ℚ → Nat → Nat → ℚ)
    (a : NpArray2) (NY NX : Nat) (h1 : a.ny ≤ NY) (h2 : a.nx ≤ NX) :
    pad_or_cut_to_size core a (NY, NX) 0 none =
      ⟨NY, NX, fun i j =>
        if halfOffset (NY - a.ny) ≤ i ∧ i < halfOffset (NY - a.ny) + a.ny ∧
            halfOffset (NX - a.nx) ≤ j ∧ j < halfOffset (NX - a.nx) + a.nx then
          a.val (i - halfOffset (NY - a.ny)) (j - halfOffset (NX - a.nx))
        else 0⟩ := by
  unfold pad_or_cut_to_size
  simp only [Option.getD_none]
  rw [if_pos ⟨h2, h1⟩, fshift2_zero, sliceStart_of_le h1, sliceStart_of_le h2]

theorem pad_crop_val (core : (Nat → Nat → ℚ) → ℚ → ℚ → ℚ → Nat → Nat → ℚ)
    (A : NpArray2) (ny nx : Nat) (h1 : ny ≤ A.ny) (h2 : nx ≤ A.nx) :
    (pad_or_cut_to_size core A (ny, nx) 0 none).ny = ny ∧
    (pad_or_cut_to_size core A (ny, nx) 0 none).nx = nx ∧
    ∀ i j, i < ny → j < nx →
      (pad_or_cut_to_size core A (ny, nx) 0 none).val i j
        = A.val (halfOffset (A.ny - ny) + i) (halfOffset (A.nx - nx) + j) := by
  by_cases hc1 : nx ≥ A.nx ∧ ny ≥ A.ny
  · -- both sizes already equal: Case 1 applies with zero margins
    have hny : ny = A.ny := le_antisymm h1 hc1.2
    have hnx : nx = A.nx := le_antisymm h2 hc1.1
    subst hny
    subst hnx
    unfold pad_or_cut_to_size
    simp only [Option.getD_none]
    rw [if_pos hc1, fshift2_zero]
    refine ⟨rfl, rfl, ?_⟩
    intro i j hi hj
    have hs : sliceStart A.ny A.ny = 0 := by simp [sliceStart]
    have hs2 : sliceStart A.nx A.nx = 0 := by simp [sliceStart]
    show (if sliceStart A.ny A.ny ≤ i ∧ i < sliceStart A.ny A.ny + A.ny ∧
        sliceStart A.nx A.nx ≤ j ∧ j < sliceStart A.nx A.nx + A.nx then
      A.val (i - sliceStart A.ny A.ny) (j - sliceStart A.nx A.nx) else 0)
      = A.val (halfOffset (A.ny - A.ny) + i) (halfOffset (A.nx - A.nx) + j)
    rw [hs, hs2, if_pos (by omega)]
    have hh : halfOffset 0 = 0 := rfl
    simp only [Nat.sub_self, hh, Nat.sub_zero, Nat.zero_add]
  · -- a strict shrink on at least one axis: Case 2, pure slice
    unfold pad_or_cut_to_size
    simp only [Option.getD_none]
    rw [if_neg hc1, if_pos ⟨h2, h1⟩, if_neg (by simp)]
    refine ⟨rfl, rfl, ?_⟩
    intro i j hi hj
    show A.val (sliceStart A.ny ny + i) (sliceStart A.nx nx + j)
      = A.val (halfOffset (A.ny - ny) + i) (halfOffset (A.nx - nx) + j)
    rw [sliceStart_of_ge h1, sliceStart_of_ge h2]

/-- C8: growing a 2-D array to any shape at least as large in both axes
(zero fill, no offsets) and then cropping back to the original shape
reproduces the original array exactly. -/
theorem C8_pad_crop_roundtrip
    (core : (Nat → Nat → ℚ) → ℚ → ℚ → ℚ → Nat → Nat → ℚ)
    (a : NpArray2) (sh : Nat × Nat) (h1 : a.ny ≤ sh.1) (h2 : a.nx ≤ sh.2) :
    (pad_or_cut_to_size core (pad_or_cut_to_size core a sh 0 none)
        (a.ny, a.nx) 0 none).ny = a.ny ∧
    (pad_or_cut_to_size core (pad_or_cut_to_size core a sh 0 none)
        (a.ny, a.nx) 0 none).nx = a.nx ∧
    ∀ i j, i < a.ny → j < a.nx →
      (pad_or_cut_to_size core (pad_or_cut_to_size core a sh 0 none)
        (a.ny, a.nx) 0 none).val i j = a.val i j := by
  obtain ⟨NY, NX⟩ := sh
  replace h1 : a.ny ≤ NY := h1
  replace h2 : a.nx ≤ NX := h2
  have hG := pad_grow_eq core a NY NX h1 h2
  have hGny : (pad_or_cut_to_size core a (NY, NX) 0 none).ny = NY := by rw [hG]
  have hGnx : (pad_or_cut_to_size core a (NY, NX) 0 none).nx = NX := by rw [hG]
  have hGval : ∀ i j, (pad_or_cut_to_size core a (NY, NX) 0 none).val i j =
      (if halfOffset (NY - a.ny) ≤ i ∧ i < halfOffset (NY - a.ny) + a.ny ∧
          halfOffset (NX - a.nx) ≤ j ∧ j < halfOffset (NX - a.nx) + a.nx then
        a.val (i - halfOffset (NY - a.ny)) (j - halfOffset (NX - a.nx))
      else 0) := by
    intro i j
    rw [hG]
  obtain ⟨hbny, hbnx, hbval⟩ := pad_crop_val core
    (pad_or_cut_to_size core a (NY, NX) 0 none) a.ny a.nx
    (by rw [hGny]; exact h1) (by rw [hGnx]; exact h2)
  refine ⟨hbny, hbnx, ?_⟩
  intro i j hi hj
  rw [hbval i j hi hj, hGny, hGnx, hGval]
  rw [if_pos (by omega)]
  congr 1 <;> omega

/-- C8 witness: the concrete 2 x 3 array grown to 5 x 7 and cropped back
returns the original entry at (1, 2). -/
theorem C8_pad_crop_roundtrip_witness :
    (pad_or_cut_to_size demoShiftCore
        (pad_or_cut_to_size demoShiftCore demoArr (5, 7) 0 none) (2, 3) 0 none).val 1 2
      = demoArr.val 1 2 := by
  exact (C8_pad_crop_roundtrip demoShiftCore demoArr (5, 7)
    (by decide) (by decide)).2.2 1 2 (by decide) (by decide)

/-! ### Claims C1, C4, C9: `_calc_psf_from_coeff` and its helpers -/

/-- Initial `_psf_coeff_mod` dictionary as built by `_init_inst`
(webbpsf_ext_core.py lines 1326-1330). -/
def init_psf_coeff_mod : PyDict :=
  [("wfe_drift", .pynone), ("wfe_drift_off", .pynone), ("wfe_drift_lxmap", .pynone),
   ("si_field", .pynone), ("si_field_v2grid", .pynone), ("si_field_v3grid", .pynone),
   ("si_field_apname", .pynone),
   ("si_mask", .pynone), ("si_mask_xgrid", .pynone), ("si_mask_ygrid", .pynone),
   ("si_mask_apname", .pynone)]

/-- Rendered PSF output: image data plus the header fields recorded by
`_calc_psf_from_coeff` (WFEDRIFT, XVAL/YVAL, CFRAME). -/
structure PsfHdu where
  image : Cube
  wfedrift_hdr : ℚ
  coords_hdr : Option ((ℚ × ℚ) × String)

/-- Instrument object state consulted by `_calc_psf_from_coeff`, with the
boundary services (SIAF frame conversion, grid interpolation
`field_coeff_func`, polynomial evaluation `jl_poly`, residual resizing
via `pad_or_cut_to_size`, bar-offset resolution, mask-relative rotation,
and image synthesis `gen_image_from_coeff` plus container assembly)
modelled as deterministic function-valued fields.  Coordinates are
modelled for a single optional field position. -/
structure InstModel where
  name : String
  image_mask : Option String
  psf_coeff : Option Cube
  psf_coeff_mod : PyDict
  siaf_convert_to_tel : (ℚ × ℚ) → String → (ℚ × ℚ)
  siaf_convert_to_sci : (ℚ × ℚ) → String → (ℚ × ℚ)
  field_coeff_func : PyObj → PyObj → PyObj → (ℚ × ℚ) → Cube
  jl_poly : ℚ → PyObj → PyObj → Cube
  resize_to_coeff : Cube → Cube
  get_bar_offset : ℚ
  bar_sci_point : ℚ × ℚ
  mask_rot_offset : (ℚ × ℚ) → (ℚ × ℚ)
  render : Cube → ℚ → Option (ℚ × ℚ) → String → PsfHdu

/-- Embedding of `_coeff_mod_wfe_field` (webbpsf_ext_core.py lines
2735-2789).  The four dictionary reads at the top of the body run
unconditionally, before any branch on `coord_vals`; the apname read uses
the key si_feild_apname, verbatim from line 2750, while the dictionary is
initialised and updated only under the spelling si_field_apname. -/
def coeff_mod_wfe_field (m : InstModel) (coord_vals : Option (ℚ × ℚ))
    (coord_frame : String) : Except PyErr (Cube × Option Nat) :=
  match dictGet m.psf_coeff_mod "si_field" with
  | .error e => .error e
  | .ok cf_fit =>
  match dictGet m.psf_coeff_mod "si_field_v2grid" with
  | .error e => .error e
  | .ok v2grid =>
  match dictGet m.psf_coeff_mod "si_field_v3grid" with
  | .error e => .error e
  | .ok v3grid =>
  match dictGet m.psf_coeff_mod "si_feild_apname" with
  | .error e => .error e
  | .ok _apname =>
  let v2v3 : Option (ℚ × ℚ) :=
    match coord_vals with
    | none => none
    | some cv =>
      if cf_fit.isNone then
        none            -- info log: skipping WFE field dependence
      else
        let cframe := coord_frame.toLower
        if cframe = "tel" then some (cv.1 / 60, cv.2 / 60)
        else if cframe = "det" ∨ cframe = "sci" ∨ cframe = "idl" then
          some (m.siaf_convert_to_tel cv cframe)
        else none       -- warning log: coord_frame not recognised
  .ok (match v2v3 with
    | some p =>
      (m.resize_to_coeff (m.field_coeff_func cf_fit v2grid v3grid p), some 1)
    | none => (0, none))

/-- Test `self.image_mask[-1] == B` selecting NIRCam bar/wedge masks. -/
def mask_is_bar : Option String → Bool
  | some s => s.endsWith "B"
  | none => false

/-- Embedding of `_coeff_mod_wfe_mask` (lines 2791-2871).  Its four
dictionary keys agree with the initialiser spelling, so the reads succeed
on an instrument built by `_init_inst`; but when the stored aperture name
is None — no mask model generated yet — line 2819 sets `siaf_ap = None`,
and every later dereference of `siaf_ap` raises AttributeError: the frame
conversion `siaf_ap.convert` for det/tel/idl coordinates (line 2846), the
bar-offset pixel computation `bar_offset / siaf_ap.XSciScale` whenever
the NIRCam bar branch reaches its else arm, e.g. with a zero bar offset
(lines 2832-2837), and the mask-shift computation `siaf_ap.XSciRef` once
science coordinates were found (lines 2858-2859). -/
def coeff_mod_wfe_mask (m : InstModel) (coord_vals : Option (ℚ × ℚ))
    (coord_frame : String) : Except PyErr (Cube × Option Nat) :=
  match dictGet m.psf_coeff_mod "si_mask" with
  | .error e => .error e
  | .ok cf_fit =>
  match dictGet m.psf_coeff_mod "si_mask_xgrid" with
  | .error e => .error e
  | .ok xgrid =>
  match dictGet m.psf_coeff_mod "si_mask_ygrid" with
  | .error e => .error e
  | .ok ygrid =>
  match dictGet m.psf_coeff_mod "si_mask_apname" with
  | .error e => .error e
  | .ok apname =>
  match (match coord_vals with
    | some cv =>
      if cf_fit.isNone then
        .ok (none, none)       -- info log: run gen_wfemask_coeff first
      else
        let cframe := coord_frame.toLower
        if cframe = "sci" then .ok (some cv, none)
        else if cframe = "det" ∨ cframe = "tel" ∨ cframe = "idl" then
          if apname.isNone then .error (.attributeError "NoneType siaf_ap.convert")
          else .ok (some (m.siaf_convert_to_sci cv cframe), none)
        else .ok (none, none)  -- warning log: frame not recognised
    | none =>
      if m.name = "NIRCam" ∧ mask_is_bar m.image_mask then
        if m.get_bar_offset ≠ 0 ∧ cf_fit.isNone then
          .ok (none, none)     -- info log: continue assuming bar_offset=0
        else if apname.isNone then
          .error (.attributeError "NoneType siaf_ap.XSciScale")
        else .ok (some m.bar_sci_point, some 1)
      else .ok (none, none)
    : Except PyErr (Option (ℚ × ℚ) × Option Nat)) with
  | .error e => .error e
  | .ok pre =>
  match pre.1 with
  | some p =>
    if apname.isNone then .error (.attributeError "NoneType siaf_ap.XSciRef")
    else
      .ok (m.resize_to_coeff (m.field_coeff_func cf_fit xgrid ygrid (m.mask_rot_offset p)),
        some 1)
  | none => .ok (0, pre.2)

/-- Embedding of `_wfe_drift_key` (lines 2637-2698) for the single
modelled field position: selects the on-mask or off-mask drift model by
the mask-centre distance of the requested position.  The source compares
`r < 0.1` with `r = sqrt(x^2 + y^2)`; the equivalent comparison on the
squared radius avoids the external square root. -/
def wfe_drift_key (m : InstModel) (coord_vals : Option (ℚ × ℚ))
    (coord_frame : String) : String :=
  match coord_vals with
  | none => "wfe_drift"
  | some cv =>
    let cframe := coord_frame.toLower
    let xysci : Option (ℚ × ℚ) :=
      if cframe = "sci" then some cv
      else if cframe = "det" ∨ cframe = "tel" ∨ cframe = "idl" then
        some (m.siaf_convert_to_sci cv cframe)
      else none
    match xysci with
    | none => "wfe_drift"
    | some p =>
      let off := m.mask_rot_offset p
      if off.1 ^ 2 + off.2 ^ 2 < (0.1 : ℚ) ^ 2 then "wfe_drift" else "wfe_drift_off"

/-- Embedding of `_coeff_mod_wfe_drift` (lines 2701-2732): a zero drift
yields the exact scalar-zero modification without consulting any model;
an absent (None) model logs a warning and also yields zero; otherwise the
degree-4 drift polynomial is evaluated and resized to the cube shape. -/
def coeff_mod_wfe_drift (m : InstModel) (wfe_drift : ℚ) (key : String) :
    Except PyErr Cube :=
  if wfe_drift = 0 then
    .ok 0
  else
    match dictGet m.psf_coeff_mod key with
    | .error e => .error e
    | .ok cf_fit =>
      if cf_fit.isNone then
        .ok 0   -- warning log: run gen_wfedrift_coeff first; continue with 0
      else
        match dictGet m.psf_coeff_mod "wfe_drift_lxmap" with
        | .error e => .error e
        | .ok lxmap => .ok (m.resize_to_coeff (m.jl_poly wfe_drift cf_fit lxmap))

/-- Embedding of `_calc_psf_from_coeff` (lines 2480-2635) for one
optional field position.  Faithful control-flow points: a missing
coefficient cube logs a warning and returns None; `wfe_drift=None` is
normalised to 0 before anything else; the field modification runs exactly
when no image mask is present, the mask modification exactly when one is;
the Python local `nfield_mask` is assigned only inside the mask branch
and is read unconditionally afterwards (line 2556), modelled by the outer
Option (None = unassigned, read raises NameError); the non-negativity
assert follows; then the drift modification, the cube addition, and
rendering. -/
def calc_psf_from_coeff (m : InstModel) (wfe_drift : Option ℚ)
    (coord_vals : Option (ℚ × ℚ)) (coord_frame : String) :
    Except PyErr (Option PsfHdu) :=
  match m.psf_coeff with
  | none => .ok none
  | some psf_coeff =>
    let w : ℚ := match wfe_drift with | none => 0 | some v => v
    match (if m.image_mask.isNone then coeff_mod_wfe_field m coord_vals coord_frame
           else .ok ((0 : Cube), (none : Option Nat))) with
    | .error e => .error e
    | .ok fieldPart =>
      let nfield := fieldPart.2.getD 1
      match (if m.image_mask.isSome then
               (match coeff_mod_wfe_mask m coord_vals coord_frame with
                | .error e => .error e
                | .ok r => .ok (r.1, some r.2) :
                  Except PyErr (Cube × Option (Option Nat)))
             else .ok ((0 : Cube), (none : Option (Option Nat)))) with
      | .error e => .error e
      | .ok maskPart =>
        match maskPart.2 with
        | none => .error (PyErr.nameError "nfield_mask")
        | some nfm =>
          let _nfield := nfm.getD nfield
          if ¬ (0 ≤ w) then
            .error (PyErr.assertError "wfe_drift should not be negative")
          else
            match coeff_mod_wfe_drift m w (wfe_drift_key m coord_vals coord_frame) with
            | .error e => .error e
            | .ok driftPart =>
              .ok (some (m.render (psf_coeff + (fieldPart.1 + maskPart.1 + driftPart))
                w coord_vals coord_frame))

/-- Demonstration rendering boundary recording the corrected cube, the
drift header value, and the coordinate header values. -/
def demoRender : Cube → ℚ → Option (ℚ × ℚ) → String → PsfHdu :=
  fun c w cv f => ⟨c, w, cv.map (fun p => (p, f))⟩

/-- Non-coronagraphic demonstration instrument: freshly initialised
correction-model dictionary and a unit coefficient cube. -/
def demoInstNoMask : InstModel where
  name := "NIRCam"
  image_mask := none
  psf_coeff := some (fun _ => 1)
  psf_coeff_mod := init_psf_coeff_mod
  siaf_convert_to_tel := fun p _ => p
  siaf_convert_to_sci := fun p _ => p
  field_coeff_func := fun _ _ _ _ => 0
  jl_poly := fun _ _ _ => 0
  resize_to_coeff := fun c => c
  get_bar_offset := 0
  bar_sci_point := (0, 0)
  mask_rot_offset := fun p => p
  render := demoRender

/-- Coronagraphic demonstration instrument (MIRI four-quadrant mask). -/
def demoInstCoron : InstModel where
  name := "MIRI"
  image_mask := some "FQPM1140"
  psf_coeff := some (fun _ => 1)
  psf_coeff_mod := init_psf_coeff_mod
  siaf_convert_to_tel := fun p _ => p
  siaf_convert_to_sci := fun p _ => p
  field_coeff_func := fun _ _ _ _ => 0
  jl_poly := fun _ _ _ => 0
  resize_to_coeff := fun c => c
  get_bar_offset := 0
  bar_sci_point := (0, 0)
  mask_rot_offset := fun p => p
  render := demoRender

/-- Correction-model dictionary after `_gen_wfemask_coeff` has run: the
four si_mask entries populated, in particular a non-None aperture name. -/
def demoMaskModDict : PyDict :=
  dictSet (dictSet (dictSet (dictSet init_psf_coeff_mod
    "si_mask" (.cube 0)) "si_mask_xgrid" (.arr [0])) "si_mask_ygrid" (.arr [0]))
    "si_mask_apname" (.str "MIRIM_MASK1140")

/-- Coronagraphic demonstration instrument whose mask model has been
generated. -/
def demoInstCoronGen : InstModel :=
  { demoInstCoron with psf_coeff_mod := demoMaskModDict }

/-! ### Theorems for claims C1, C4, C9 -/

theorem dictGet_of_hasKey (d : PyDict) (k : String) (h : hasKey d k = true) :
    ∃ v, dictGet d k = .ok v := by
  unfold hasKey at h
  unfold dictGet
  cases hf : d.find? (fun kv => kv.1 == k) with
  | none => rw [hf] at h; simp at h
  | some kv => exact ⟨kv.2, rfl⟩

theorem dictGet_of_missing (d : PyDict) (k : String) (h : hasKey d k = false) :
    dictGet d k = .error (.keyError k) := by
  unfold hasKey at h
  unfold dictGet
  cases hf : d.find? (fun kv => kv.1 == k) with
  | none => rfl
  | some kv => rw [hf] at h; simp at h

/-- Unconditional failure of the field-correction helper: whenever the
dictionary carries the three canonical si_field keys but not the
misspelled key read at line 2750, the lookup raises before any branch on
the coordinates is reached. -/
theorem coeff_mod_wfe_field_raises (m : InstModel)
    (h1 : hasKey m.psf_coeff_mod "si_field" = true)
    (h2 : hasKey m.psf_coeff_mod "si_field_v2grid" = true)
    (h3 : hasKey m.psf_coeff_mod "si_field_v3grid" = true)
    (h4 : hasKey m.psf_coeff_mod "si_feild_apname" = false)
    (cv : Option (ℚ × ℚ)) (cf : String) :
    coeff_mod_wfe_field m cv cf = .error (.keyError "si_feild_apname") := by
  obtain ⟨v1, hv1⟩ := dictGet_of_hasKey _ _ h1
  obtain ⟨v2, hv2⟩ := dictGet_of_hasKey _ _ h2
  obtain ⟨v3, hv3⟩ := dictGet_of_hasKey _ _ h3
  unfold coeff_mod_wfe_field
  rw [hv1, hv2, hv3, dictGet_of_missing _ _ h4]

/-- The mask-correction helper succeeds whenever its four (canonically
spelled) dictionary keys are present and the stored aperture name is not
None — as after `_gen_wfemask_coeff` has run — since every AttributeError
dereference of `siaf_ap` is then disarmed. -/
theorem coeff_mod_wfe_mask_ok (m : InstModel) (cv : Option (ℚ × ℚ)) (cf : String)
    (h1 : hasKey m.psf_coeff_mod "si_mask" = true)
    (h2 : hasKey m.psf_coeff_mod "si_mask_xgrid" = true)
    (h3 : hasKey m.psf_coeff_mod "si_mask_ygrid" = true)
    (apv : PyObj) (h4 : dictGet m.psf_coeff_mod "si_mask_apname" = .ok apv)
    (h4n : apv.isNone = false) :
    ∃ v, coeff_mod_wfe_mask m cv cf = .ok v := by
  obtain ⟨v1, hv1⟩ := dictGet_of_hasKey _ _ h1
  obtain ⟨v2, hv2⟩ := dictGet_of_hasKey _ _ h2
  obtain ⟨v3, hv3⟩ := dictGet_of_hasKey _ _ h3
  unfold coeff_mod_wfe_mask
  rw [hv1, hv2, hv3, h4]
  simp only [h4n, Bool.false_eq_true, if_false]
  repeat' split
  all_goals first
    | exact ⟨_, rfl⟩
    | (rename_i heqa
       repeat' split at heqa
       all_goals exact Except.noConfusion heqa)

/-- C1 (code-bug evidence): on every configuration without a
coronagraphic image mask whose correction dictionary carries the three
canonical si_field keys but not the misspelled one — true of every
dictionary built by `_init_inst` and updated by the generators —
`calc_psf_from_coeff` after `gen_psf_coeff` raises
KeyError si_feild_apname from `_coeff_mod_wfe_field`, for every
coord_vals (including None) and coord_frame, instead of degrading
gracefully to a zero field correction. -/
theorem C1_field_correction_keyerror (m : InstModel) (c : Cube)
    (hmask : m.image_mask = none) (hc : m.psf_coeff = some c)
    (h1 : hasKey m.psf_coeff_mod "si_field" = true)
    (h2 : hasKey m.psf_coeff_mod "si_field_v2grid" = true)
    (h3 : hasKey m.psf_coeff_mod "si_field_v3grid" = true)
    (h4 : hasKey m.psf_coeff_mod "si_feild_apname" = false)
    (wd : Option ℚ) (cv : Option (ℚ × ℚ)) (cf : String) :
    calc_psf_from_coeff m wd cv cf = .error (.keyError "si_feild_apname") := by
  have hfield := coeff_mod_wfe_field_raises m h1 h2 h3 h4 cv cf
  simp only [calc_psf_from_coeff, hc, hmask, Option.isNone_none, if_true, hfield]

/-- C1 witness: the freshly initialised maskless demonstration instrument
with a generated coefficient cube raises the key error on a plain call. -/
theorem C1_field_correction_keyerror_witness :
    calc_psf_from_coeff demoInstNoMask none none "tel"
      = .error (.keyError "si_feild_apname") := by
  exact C1_field_correction_keyerror demoInstNoMask (fun _ => 1) rfl rfl
    rfl rfl rfl rfl none none "tel"

/-- C4: with an existing coefficient cube, `calc_psf_from_coeff` with
wfe_drift=0 is identical to wfe_drift=None — the None default is
normalised to 0 before any computation — and the drift correction term is
the exact scalar zero for every drift-model key, even when a drift model
exists, by the `wfe_drift==0` short-circuit of `_coeff_mod_wfe_drift`. -/
theorem C4_zero_drift_identity (m : InstModel) (c : Cube)
    (hc : m.psf_coeff = some c) (cv : Option (ℚ × ℚ)) (cf : String) :
    calc_psf_from_coeff m none cv cf = calc_psf_from_coeff m (some 0) cv cf ∧
    ∀ key, coeff_mod_wfe_drift m 0 key = .ok 0 := by
  refine ⟨rfl, fun key => ?_⟩
  simp [coeff_mod_wfe_drift]

/-- C4 witness: the coronagraphic demonstration instrument produces
identical results for wfe_drift=None and wfe_drift=0. -/
theorem C4_zero_drift_identity_witness :
    calc_psf_from_coeff demoInstCoron none none "tel"
      = calc_psf_from_coeff demoInstCoron (some 0) none "tel" := by
  exact (C4_zero_drift_identity demoInstCoron (fun _ => 1) rfl none "tel").1

/-- Discriminator for assertion-style failures. -/
def isAssertPE : PyErr → Bool
  | .assertError _ => true
  | _ => false

/-- C9 counterexample: on a non-coronagraphic configuration with an
existing coefficient cube, a negative wfe_drift fails with the
si_feild_apname KeyError of the field-correction step — which runs before
the non-negativity assert — not with an assertion-style error. -/
theorem C9_negative_drift_counterexample :
    calc_psf_from_coeff demoInstNoMask (some (-5)) none "tel"
      = .error (.keyError "si_feild_apname") ∧
    isAssertPE (.keyError "si_feild_apname") = false := by
  constructor
  · have hfield := coeff_mod_wfe_field_raises demoInstNoMask rfl rfl rfl rfl none "tel"
    simp only [calc_psf_from_coeff, hfield]
    rfl
  · rfl

/-- C9 amended: with an existing coefficient cube, a negative wfe_drift
never returns a PSF — the call always raises.  On maskless
configurations the field-correction bug raises first (a KeyError, or the
unassigned-nfield_mask NameError were the key present); on coronagraphic
configurations whose dictionary carries the four si_mask keys with a
non-None aperture name — every configuration on which
`gen_wfemask_coeff` has run — the failure is exactly the non-negativity
assertion; but a coronagraphic NIRCam bar-mask configuration whose mask
model was never generated (aperture name still None) and whose bar
offset is zero dies even earlier, in the mask-correction step, on the
AttributeError of dereferencing `siaf_ap = None` at line 2835, before
the assert is reached. -/
theorem C9_negative_drift (m : InstModel) (c : Cube) (hc : m.psf_coeff = some c)
    (d : ℚ) (hd : d < 0) (cv : Option (ℚ × ℚ)) (cf : String) :
    (∃ e, calc_psf_from_coeff m (some d) cv cf = .error e) ∧
    (∀ msk apv, m.image_mask = some msk →
      hasKey m.psf_coeff_mod "si_mask" = true →
      hasKey m.psf_coeff_mod "si_mask_xgrid" = true →
      hasKey m.psf_coeff_mod "si_mask_ygrid" = true →
      dictGet m.psf_coeff_mod "si_mask_apname" = .ok apv →
      apv.isNone = false →
      calc_psf_from_coeff m (some d) cv cf
        = .error (.assertError "wfe_drift should not be negative")) ∧
    (∀ msk, m.image_mask = some msk → m.name = "NIRCam" →
      mask_is_bar m.image_mask = true → m.get_bar_offset = 0 →
      hasKey m.psf_coeff_mod "si_mask" = true →
      hasKey m.psf_coeff_mod "si_mask_xgrid" = true →
      hasKey m.psf_coeff_mod "si_mask_ygrid" = true →
      dictGet m.psf_coeff_mod "si_mask_apname" = .ok PyObj.pynone →
      calc_psf_from_coeff m (some d) none cf
        = .error (.attributeError "NoneType siaf_ap.XSciScale")) := by
  have hw : ¬ ((0 : ℚ) ≤ d) := not_le.mpr hd
  refine ⟨?_, ?_, ?_⟩
  · cases hm : m.image_mask with
    | none =>
      cases hf : coeff_mod_wfe_field m cv cf with
      | error e =>
        refine ⟨e, ?_⟩
        simp only [calc_psf_from_coeff, hc, hm, Option.isNone_none, if_true, hf]
      | ok v =>
        refine ⟨PyErr.nameError "nfield_mask", ?_⟩
        simp [calc_psf_from_coeff, hc, hm, hf]
    | some msk =>
      cases hmres : coeff_mod_wfe_mask m cv cf with
      | error e =>
        refine ⟨e, ?_⟩
        simp only [calc_psf_from_coeff, hc, hm, Option.isNone_some,
          Option.isSome_some, if_true, hmres]
        rfl
      | ok r =>
        refine ⟨PyErr.assertError "wfe_drift should not be negative", ?_⟩
        simp [calc_psf_from_coeff, hc, hm, hmres, hw]
  · intro msk apv hm k1 k2 k3 hap hapn
    obtain ⟨v, hv⟩ := coeff_mod_wfe_mask_ok m cv cf k1 k2 k3 apv hap hapn
    simp [calc_psf_from_coeff, hc, hm, hv, hw]
  · intro msk hm hname hbar h0 k1 k2 k3 hap
    have hmres : coeff_mod_wfe_mask m none cf
        = .error (.attributeError "NoneType siaf_ap.XSciScale") := by
      obtain ⟨v1, hv1⟩ := dictGet_of_hasKey _ _ k1
      obtain ⟨v2, hv2⟩ := dictGet_of_hasKey _ _ k2
      obtain ⟨v3, hv3⟩ := dictGet_of_hasKey _ _ k3
      unfold coeff_mod_wfe_mask
      rw [hv1, hv2, hv3, hap]
      simp [hname, hbar, h0, PyObj.isNone]
    simp only [calc_psf_from_coeff, hc, hm, Option.isNone_some,
      Option.isSome_some, if_true, hmres]
    rfl

/-- C9 witness: the coronagraphic demonstration instrument with a
generated mask model and wfe_drift = -1 raises the assertion error. -/
theorem C9_negative_drift_witness :
    calc_psf_from_coeff demoInstCoronGen (some (-1)) none "tel"
      = .error (.assertError "wfe_drift should not be negative") := by
  exact (C9_negative_drift demoInstCoronGen (fun _ => 1) rfl (-1) (by norm_num)
    none "tel").2.1 "FQPM1140" (PyObj.str "MIRIM_MASK1140") rfl rfl rfl rfl rfl rfl

end WebbpsfExt
